import Mathlib

/-!
Verification of the httpbench load generator against its specification.

This file gives a shallow embedding, in Lean 4, of the parts of the Go
source relevant to the checked claims:

* `pkg/config/config.go` — configuration structures and `Config.Validate`;
* `pkg/validator/validator.go` — the response validator;
* `pkg/stats/collector.go` — the statistics collector (counters, error and
  status maps, time series);
* `pkg/benchmark/monitor.go` — the request executor `executeRequest`, the
  rate limiter, and the ramp-up load controller.

Modelling conventions:

* Go `int`/`int64` are modelled as `Int`; Go integer division truncates
  toward zero, which is `Int.tdiv` (Lean's `/` on `Int` is euclidean).
* `time.Duration` and wall-clock instants are nanosecond counts (`Int` for
  configured durations, which Go allows to be negative; `Nat` for instants).
* Byte strings (`[]byte`, and the `string` patterns compared against them)
  are `List Nat`.
* Go maps that the code only reads through lookup or emptiness tests
  (`statusCodeMap`, `HeaderValidation`) are modelled as association lists;
  Go's randomized map iteration order is fixed arbitrarily by the list
  order, and no theorem below depends on that order.
* Compiled regular expressions are abstracted as their matching functions
  `List Nat → Bool`; `regexp.Compile` is an arbitrary parameter
  `String → Option (List Nat → Bool)` (`none` = compilation error).
* Error message strings built with `fmt.Sprintf` (Chinese text in the
  source) are abstracted to short English descriptions; every theorem that
  inspects a `ValidationError` does so only through its `type` field, which
  copies the source's kind strings exactly.
* float64 arithmetic on requests-per-second and error rates is modelled as
  exact rational arithmetic (ℚ); the quantities involved are ratios of
  integer counters and nanosecond intervals, and no claim depends on
  rounding of the float results.
-/

namespace HttpBench

/-! ## Byte strings

`bytes.Contains` from the Go standard library: `hasSub body sub` is true
iff `sub` occurs as a contiguous run inside `body`. -/

/-- `leadsWith sub body` : `sub` occurs at the very start of `body`. -/
def leadsWith : List Nat → List Nat → Bool
  | [], _ => true
  | _ :: _, [] => false
  | a :: as, b :: bs => a == b && leadsWith as bs

/-- `bytes.Contains(body, sub)`: `sub` occurs contiguously inside `body`. -/
def hasSub (body sub : List Nat) : Bool :=
  match body with
  | [] => sub.isEmpty
  | _ :: rest => leadsWith sub body || hasSub rest sub

/-! ## Configuration (`pkg/config/config.go`)

Only the sections touched by the embedded functions are carried; the
`TLS`, `Request` and `Output` sections configure the HTTP client and the
reporters, which no claim is about. -/

/-- `TargetConfig` from config.go (timeout in nanoseconds). -/
structure TargetConfig where
  url : String
  method : String
  headers : List (String × String)
  body : String
  timeout : Int
deriving DecidableEq, Repr

/-- `RampUpConfig` from config.go. -/
structure RampUpConfig where
  enabled : Bool
  startConcurrency : Int
  endConcurrency : Int
  duration : Int
  steps : Int
deriving DecidableEq, Repr

/-- `BurstConfig` from config.go. -/
structure BurstConfig where
  enabled : Bool
  baseConcurrency : Int
  burstConcurrency : Int
  burstDuration : Int
  burstInterval : Int
deriving DecidableEq, Repr

/-- `LoadConfig` from config.go; `loadPattern` is the Go string constant
("constant", "ramp_up" or "burst"). -/
structure LoadConfig where
  concurrency : Int
  duration : Int
  totalRequests : Int
  rateLimit : Int
  loadPattern : String
  rampUp : RampUpConfig
  burstMode : BurstConfig
deriving DecidableEq, Repr

/-- `ProtocolConfig` from config.go (the protocol-specific sub-configs are
not read by any embedded function and are omitted). -/
structure ProtocolConfig where
  http2Enabled : Bool
  http3Enabled : Bool
  keepAlive : Bool
  idleTimeout : Int
deriving DecidableEq, Repr

/-- `BodyValidation` from config.go. -/
structure BodyValidation where
  minSize : Int
  maxSize : Int
  contains : List (List Nat)
  notContains : List (List Nat)
  jsonSchema : String
deriving DecidableEq, Repr

/-- `ValidationConfig` from config.go (`responseTimeMax` in nanoseconds;
`headerValidation` is the Go `map[string]string` as an association list). -/
structure ValidationConfig where
  statusCodes : List Int
  contentPatterns : List String
  responseTimeMax : Int
  headerValidation : List (String × String)
  bodyValidation : BodyValidation
deriving DecidableEq, Repr

/-- `DistributedConfig` from config.go. -/
structure DistributedConfig where
  enabled : Bool
  workerMode : Bool
  masterAddress : String
  workerAddresses : List String
  syncInterval : Int
  grpcPort : Int
deriving DecidableEq, Repr

/-- `Config` from config.go, restricted to the sections the embedded
functions read. -/
structure Config where
  target : TargetConfig
  load : LoadConfig
  protocol : ProtocolConfig
  validation : ValidationConfig
  distributed : DistributedConfig
deriving DecidableEq, Repr

/-- The distinct errors `Config.Validate` can return, one per
`fmt.Errorf` site in the source, in source order. -/
inductive ConfigError where
  | emptyURL
  | nonPositiveConcurrency
  | noStopCondition
  | http2AndHttp3
  | distributedNoWorkers
deriving DecidableEq, Repr

/-- `Config.Validate` from config.go: the chain of early-return checks,
returning the first failing one. -/
def configValidate (c : Config) : Option ConfigError :=
  if c.target.url = "" then
    some .emptyURL
  else if c.load.concurrency ≤ 0 then
    some .nonPositiveConcurrency
  else if c.load.duration ≤ 0 ∧ c.load.totalRequests ≤ 0 then
    some .noStopCondition
  else if c.protocol.http2Enabled ∧ c.protocol.http3Enabled then
    some .http2AndHttp3
  else if c.distributed.enabled ∧ ¬ c.distributed.workerMode
      ∧ c.distributed.workerAddresses.length = 0 then
    some .distributedNoWorkers
  else
    none

/-! ## HTTP responses

The slice of `net/http.Response` the validator and executor read: the
status code and the header map.  `headerGet` is `http.Header.Get`; Go
canonicalizes header names on both `Set` and `Get`, so the embedding
stores canonical names and looks them up by exact match, and returns `""`
for an absent header exactly as Go does. -/

/-- The observed fields of an `*http.Response`. -/
structure HTTPResponse where
  statusCode : Int
  header : List (String × String)
deriving DecidableEq, Repr

/-- `http.Header.Get`: first binding of the (canonical) name, `""` if absent. -/
def headerGet (hs : List (String × String)) (key : String) : String :=
  match hs.find? (fun p => p.1 == key) with
  | some p => p.2
  | none => ""

/-! ## Validator (`pkg/validator/validator.go`) -/

/-- A compiled regular expression, abstracted as its matching function
(`(*regexp.Regexp).Match`). -/
abbrev Matcher := List Nat → Bool

/-- `ValidationError` from validator.go.  `type` copies the source's kind
strings; `message` abstracts the `fmt.Sprintf` text (see header note). -/
structure ValidationError where
  type : String
  message : String
deriving DecidableEq, Repr

/-- `Validator` from validator.go.  The Go field `statusCodeMap` is a
`map[int]bool` built by inserting every configured code; it is read only
through `len(...) == 0` and membership, so it is carried as the list of
inserted codes (same emptiness, same membership). -/
structure Validator where
  config : ValidationConfig
  contentPatterns : List Matcher
  statusCodeMap : List Int

/-- `validator.New`: compile each configured pattern once, keeping the
ones that compile (`if re, err := regexp.Compile(pattern); err == nil`),
and build the status-code set.  `compile` stands for `regexp.Compile`. -/
def validatorNew (compile : String → Option Matcher) (cfg : ValidationConfig) :
    Validator :=
  { config := cfg
    contentPatterns := cfg.contentPatterns.filterMap compile
    statusCodeMap := cfg.statusCodes }

/-- `validateStatusCode` from validator.go. -/
def validateStatusCode (v : Validator) (code : Int) : Option ValidationError :=
  if v.statusCodeMap.isEmpty then
    none
  else if ¬ v.statusCodeMap.contains code then
    some { type := "status_code", message := "code not in allowed list" }
  else
    none

/-- The header loop of `validateHeaders`: first configured pair whose
response value differs, in list order. -/
def headerMismatch (hs : List (String × String)) :
    List (String × String) → Option (String × String)
  | [] => none
  | (key, expected) :: rest =>
    if headerGet hs key ≠ expected then some (key, expected)
    else headerMismatch hs rest

/-- `validateHeaders` from validator.go: error on the first configured
header whose response value differs from the expected value. -/
def validateHeaders (v : Validator) (hs : List (String × String)) :
    Option ValidationError :=
  match headerMismatch hs v.config.headerValidation with
  | some _ => some { type := "header", message := "header mismatch" }
  | none => none

/-- The `Contains` loop of `validateBody`: first required byte string not
present in the body. -/
def firstMissing (body : List Nat) : List (List Nat) → Option (List Nat)
  | [] => none
  | c :: rest => if ¬ hasSub body c then some c else firstMissing body rest

/-- The `NotContains` loop of `validateBody`: first forbidden byte string
present in the body. -/
def firstForbidden (body : List Nat) : List (List Nat) → Option (List Nat)
  | [] => none
  | c :: rest => if hasSub body c then some c else firstForbidden body rest

/-- The pattern loop of `validateBody`: first compiled pattern the body
does not match. -/
def firstNonMatching (body : List Nat) : List Matcher → Option Matcher
  | [] => none
  | p :: rest => if ¬ p body then some p else firstNonMatching body rest

/-- `validateBody` from validator.go: size bounds, required content,
forbidden content, then patterns, each an early return. -/
def validateBody (v : Validator) (body : List Nat) : Option ValidationError :=
  let bodyLen : Int := body.length
  if v.config.bodyValidation.minSize > 0 ∧ bodyLen < v.config.bodyValidation.minSize then
    some { type := "body_size", message := "body smaller than min size" }
  else if v.config.bodyValidation.maxSize > 0 ∧ bodyLen > v.config.bodyValidation.maxSize then
    some { type := "body_size", message := "body larger than max size" }
  else
    match firstMissing body v.config.bodyValidation.contains with
    | some _ => some { type := "body_content", message := "required content absent" }
    | none =>
      match firstForbidden body v.config.bodyValidation.notContains with
      | some _ => some { type := "body_content", message := "forbidden content present" }
      | none =>
        match firstNonMatching body v.contentPatterns with
        | some _ => some { type := "content_pattern", message := "body does not match pattern" }
        | none => none

/-- `Validator.Validate` from validator.go: status code, then headers,
then body, first error wins. -/
def validate (v : Validator) (resp : HTTPResponse) (body : List Nat) :
    Option ValidationError :=
  match validateStatusCode v resp.statusCode with
  | some e => some e
  | none =>
    match validateHeaders v resp.header with
    | some e => some e
    | none => validateBody v body

/-- `Validator.ValidateWithLatency` from validator.go: `Validate`, then
the response-time threshold when one is configured (latency in
nanoseconds). -/
def validateWithLatency (v : Validator) (resp : HTTPResponse) (body : List Nat)
    (latency : Int) : Option ValidationError :=
  match validate v resp body with
  | some e => some e
  | none =>
    if v.config.responseTimeMax > 0 ∧ latency > v.config.responseTimeMax then
      some { type := "response_time", message := "latency above threshold" }
    else
      none

/-! ## Specification-side view of the validator (for claim C5)

The spec describes validation as a fixed ordered list of checks, the
first failure short-circuiting.  The definitions below are written from
the spec's words (§4.4), each producing the kind of its failure, and are
compared against the source-derived `validate`/`validateWithLatency`
above. -/

/-- First `some` of an ordered list of check results. -/
def firstSome : List (Option String) → Option String
  | [] => none
  | some k :: _ => some k
  | none :: rest => firstSome rest

/-- The kind carried by a validation result. -/
def kindOf : Option ValidationError → Option String
  | some e => some e.type
  | none => none

/-- Spec check 1 — Status: "if an allowed set is configured, the status
must be a member". -/
def specStatusCheck (v : Validator) (resp : HTTPResponse) : Option String :=
  if v.config.statusCodes ≠ [] ∧ ¬ v.config.statusCodes.contains resp.statusCode then
    some "status_code"
  else
    none

/-- Spec check 2 — Headers: "for each configured (name, expected-value)
pair, the response must carry the header with the exact expected value". -/
def specHeadersCheck (v : Validator) (resp : HTTPResponse) : Option String :=
  if v.config.headerValidation.all
      (fun p => headerGet resp.header p.1 == p.2) then
    none
  else
    some "header"

/-- Spec check 3 — Body size: "within [min_size, max_size] if either is
configured" (a zero bound means that side is not configured). -/
def specBodySizeCheck (v : Validator) (body : List Nat) : Option String :=
  if (v.config.bodyValidation.minSize > 0 ∧ (body.length : Int) < v.config.bodyValidation.minSize)
      ∨ (v.config.bodyValidation.maxSize > 0 ∧ (body.length : Int) > v.config.bodyValidation.maxSize) then
    some "body_size"
  else
    none

/-- Spec check 4 — Required substrings: "all must be present". -/
def specRequiredCheck (v : Validator) (body : List Nat) : Option String :=
  if v.config.bodyValidation.contains.all (fun c => hasSub body c) then
    none
  else
    some "body_content"

/-- Spec check 5 — Forbidden substrings: "none may be present". -/
def specForbiddenCheck (v : Validator) (body : List Nat) : Option String :=
  if v.config.bodyValidation.notContains.any (fun c => hasSub body c) then
    some "body_content"
  else
    none

/-- Spec check 6 — Regex patterns: "every configured pattern must match"
(over the patterns that compiled, which is what the validator holds). -/
def specPatternsCheck (v : Validator) (body : List Nat) : Option String :=
  if v.contentPatterns.all (fun p => p body) then
    none
  else
    some "content_pattern"

/-- Spec check 7 — Latency (latency-aware variant only): "latency ≤ max
threshold", when a threshold is configured. -/
def specLatencyCheck (v : Validator) (latency : Int) : Option String :=
  if v.config.responseTimeMax > 0 ∧ latency > v.config.responseTimeMax then
    some "response_time"
  else
    none

/-- The spec's ordered check list for `Validate` (§4.4, checks 1–6). -/
def specChecks (v : Validator) (resp : HTTPResponse) (body : List Nat) :
    List (Option String) :=
  [specStatusCheck v resp, specHeadersCheck v resp, specBodySizeCheck v body,
   specRequiredCheck v body, specForbiddenCheck v body, specPatternsCheck v body]

/-- The spec's ordered check list for `ValidateWithLatency` (checks 1–7). -/
def specChecksWithLatency (v : Validator) (resp : HTTPResponse) (body : List Nat)
    (latency : Int) : List (Option String) :=
  specChecks v resp body ++ [specLatencyCheck v latency]

/-! ## Statistics collector (`pkg/stats/collector.go`)

Counters are `atomic.Int64` in Go; overflow is irrelevant at the scales
involved, so they are plain `Int`.  The HDR histogram is abstracted as
the list of recorded microsecond values: no claim reads anything from it
except the mean, which is modelled as the exact mean (the histogram's
3-significant-figure quantization does not matter to any claim).
Wall-clock instants are nanosecond counts (`Nat`). -/

/-- `TimePoint` from collector.go (`rps`, `errorRate` are float64 in Go,
exact rationals here; `avgLatency` in nanoseconds). -/
structure TimePoint where
  timestamp : Nat
  rps : ℚ
  avgLatency : ℚ
  errorRate : ℚ
deriving DecidableEq, Repr

/-- The mutable state of `stats.Collector`. -/
structure Collector where
  totalRequests : Int
  successRequests : Int
  totalErrors : Int
  bytesReceived : Int
  bytesSent : Int
  latencyHistogram : List Int
  errorsByType : List (String × Int)
  statusCodes : List (Int × Int)
  timeSeries : List TimePoint
  lastSnapshot : Nat
  startTime : Nat
deriving DecidableEq, Repr

/-- `stats.NewCollector` created at instant `now`. -/
def newCollector (now : Nat) : Collector :=
  { totalRequests := 0, successRequests := 0, totalErrors := 0
    bytesReceived := 0, bytesSent := 0
    latencyHistogram := []
    errorsByType := [], statusCodes := []
    timeSeries := []
    lastSnapshot := now, startTime := now }

/-- Increment the counter for `k` in a keyed counter map, inserting it at
1 when absent — the `counter, exists := m[k]; ...; counter.Add(1)`
pattern shared by `RecordError` and `RecordStatusCode`. -/
def bumpCount {α : Type} [BEq α] (k : α) : List (α × Int) → List (α × Int)
  | [] => [(k, 1)]
  | (k0, n) :: rest =>
    if k0 == k then (k0, n + 1) :: rest else (k0, n) :: bumpCount k rest

/-- `Collector.RecordRequest` (latency in nanoseconds;
`latency.Microseconds()` is nanoseconds divided by 1000, truncated). -/
def recordRequest (c : Collector) (latency : Nat) (bytesReceived bytesSent : Int)
    (success : Bool) : Collector :=
  { c with
    totalRequests := c.totalRequests + 1
    successRequests := if success then c.successRequests + 1 else c.successRequests
    totalErrors := if success then c.totalErrors else c.totalErrors + 1
    bytesReceived := c.bytesReceived + bytesReceived
    bytesSent := c.bytesSent + bytesSent
    latencyHistogram := c.latencyHistogram ++ [(latency : Int) / 1000] }

/-- `Collector.RecordError`: bumps the per-kind counter AND the global
error counter. -/
def recordError (c : Collector) (errorType : String) : Collector :=
  { c with
    totalErrors := c.totalErrors + 1
    errorsByType := bumpCount errorType c.errorsByType }

/-- `Collector.RecordStatusCode`. -/
def recordStatusCode (c : Collector) (code : Int) : Collector :=
  { c with statusCodes := bumpCount code c.statusCodes }

/-- `Snapshot` from collector.go (counters, maps, mean and derived
latency fields are value copies; only the fields a claim reads are
carried). -/
structure Snapshot where
  totalRequests : Int
  successRequests : Int
  totalErrors : Int
  bytesReceived : Int
  bytesSent : Int
  errorsByType : List (String × Int)
  statusCodes : List (Int × Int)
  avgLatency : ℚ
  timestamp : Nat
deriving DecidableEq, Repr

/-- Exact mean of the recorded values (abstraction of
`latencyHistogram.Mean()`), in microseconds. -/
def histMean (l : List Int) : ℚ :=
  if l.isEmpty then 0 else ((l.foldl (· + ·) 0 : Int) : ℚ) / (l.length : ℚ)

/-- The pure part of `Collector.Snapshot`: the value copy taken before
`recordTimePoint` runs (`avgLatency` converted to nanoseconds as in the
source's `* time.Microsecond`). -/
def takeSnapshot (c : Collector) (now : Nat) : Snapshot :=
  { totalRequests := c.totalRequests
    successRequests := c.successRequests
    totalErrors := c.totalErrors
    bytesReceived := c.bytesReceived
    bytesSent := c.bytesSent
    errorsByType := c.errorsByType
    statusCodes := c.statusCodes
    avgLatency := histMean c.latencyHistogram * 1000
    timestamp := now }

/-- `getLastTotalRequests` from collector.go, verbatim: both branches
return 0 (the source comment reads "simplified implementation; should
really save the last snapshot"). -/
def getLastTotalRequests (c : Collector) : Int :=
  if c.timeSeries.isEmpty then 0 else 0

/-- `recordTimePoint` from collector.go: append a time point only when at
least one second has passed since `lastSnapshot`; RPS is the delta over
`getLastTotalRequests` divided by the elapsed seconds, the error rate is
the cumulative ratio. -/
def recordTimePoint (c : Collector) (snapshot : Snapshot) (now : Nat) : Collector :=
  if now - c.lastSnapshot < 1000000000 then
    c
  else
    let durationSec : ℚ := ((now - c.lastSnapshot : Nat) : ℚ) / 1000000000
    let requestsDelta : Int := snapshot.totalRequests - getLastTotalRequests c
    let rps : ℚ := (requestsDelta : ℚ) / durationSec
    let errorRate : ℚ :=
      if snapshot.totalRequests > 0 then
        (snapshot.totalErrors : ℚ) / (snapshot.totalRequests : ℚ)
      else 0
    { c with
      timeSeries := c.timeSeries ++
        [{ timestamp := now, rps := rps
           avgLatency := snapshot.avgLatency, errorRate := errorRate }]
      lastSnapshot := now }

/-- `Collector.Snapshot` at instant `now`: the returned value copy and
the collector after the embedded `recordTimePoint` call. -/
def collectorSnapshot (c : Collector) (now : Nat) : Snapshot × Collector :=
  let s := takeSnapshot c now
  (s, recordTimePoint c s now)

/-! ## Request executor (`pkg/benchmark/monitor.go`, `executeRequest`)

`executeRequest` is modelled in two layers: the outcome of the HTTP
exchange (which of the pipeline stages failed, and with what data), and
the sequence of collector calls the source issues for that outcome.  The
collector effect of a request is the fold of its call sequence. -/

/-- How one request's HTTP exchange went, as observed by
`executeRequest` (latency in nanoseconds): request construction failed;
`client.Do` failed; `io.ReadAll` on the body failed; or the exchange
completed with a response and a fully-read body (validation is then up
to the validator). -/
inductive RequestOutcome where
  | createFail
  | networkFail (latency : Nat)
  | bodyReadFail (latency : Nat)
  | completed (latency : Nat) (resp : HTTPResponse) (body : List Nat)
      (contentLength : Int)

/-- One collector call. -/
inductive CollectorEvent where
  | recError (errorType : String)
  | recRequest (latency : Nat) (bytesReceived bytesSent : Int) (success : Bool)
  | recStatusCode (code : Int)
deriving DecidableEq, Repr

/-- Apply one collector call. -/
def applyEvent (c : Collector) : CollectorEvent → Collector
  | .recError t => recordError c t
  | .recRequest lat bin bout ok => recordRequest c lat bin bout ok
  | .recStatusCode code => recordStatusCode c code

/-- Apply a sequence of collector calls in order. -/
def runEvents (c : Collector) (es : List CollectorEvent) : Collector :=
  es.foldl applyEvent c

/-- The collector calls `executeRequest` issues, in source order, for a
given exchange outcome:

* creation failure — `RecordError("request_creation")`, return;
* network failure — `RecordError("network")`, then
  `RecordRequest(latency, 0, 0, false)`, return;
* body-read failure — `RecordError("body_read")`, then
  `RecordRequest(latency, 0, 0, false)`, return;
* completed — `RecordError("validation")` when the validator rejects,
  then `RecordRequest(latency, len(body), req.ContentLength, success)`
  and `RecordStatusCode(resp.StatusCode)`. -/
def executeRequestEvents (v : Validator) : RequestOutcome → List CollectorEvent
  | .createFail => [.recError "request_creation"]
  | .networkFail lat => [.recError "network", .recRequest lat 0 0 false]
  | .bodyReadFail lat => [.recError "body_read", .recRequest lat 0 0 false]
  | .completed lat resp body contentLength =>
    let success := (validate v resp body).isNone
    (if success then [] else [.recError "validation"]) ++
      [.recRequest lat (body.length : Int) contentLength success,
       .recStatusCode resp.statusCode]

/-- Collector state after `executeRequest` runs on outcome `o`. -/
def executeRequest (v : Validator) (o : RequestOutcome) (c : Collector) : Collector :=
  runEvents c (executeRequestEvents v o)

/-- Whether an event is a `RecordStatusCode` call. -/
def isRecStatusCode : CollectorEvent → Bool
  | .recStatusCode _ => true
  | _ => false

/-- Whether the exchange completed (headers received and body fully read). -/
def RequestOutcome.isCompleted : RequestOutcome → Bool
  | .completed _ _ _ _ => true
  | _ => false

/-! ## Rate limiter (`pkg/benchmark/monitor.go`) -/

/-- `RateLimiter` from monitor.go (`interval` in nanoseconds). -/
structure RateLimiter where
  rps : Int
  interval : Int
deriving DecidableEq, Repr

/-- `NewRateLimiter`: `interval = time.Second / time.Duration(rps)`,
Go's truncating int64 division. -/
def newRateLimiter (rps : Int) : RateLimiter :=
  { rps := rps, interval := Int.tdiv 1000000000 rps }

/-- The engine's limiter construction in `benchmark.New`: a limiter is
built exactly when `cfg.Load.RateLimit > 0`. -/
def benchmarkRateLimiter (load : LoadConfig) : Option RateLimiter :=
  if load.rateLimit > 0 then some (newRateLimiter load.rateLimit) else none

/-- Tick instants of the limiter's `time.Ticker` started at instant 0:
the k-th tick (k ≥ 1) fires at `k * interval`. -/
def tickerTick (r : RateLimiter) (k : Nat) : Int :=
  (k : Int) * r.interval

/-- What `RateLimiter.Wait` returned on. -/
inductive WaitEvent where
  | ticked
  | cancelled
deriving DecidableEq, Repr

/-- `RateLimiter.Wait`: a `select` between the context's cancellation and
the ticker, returning at whichever fires first.  `nextTick` is the instant
of the pending tick and `cancelAt` the context's cancellation instant, if
any; ties are resolved to cancellation (Go's select chooses arbitrarily,
and no claim depends on the tie). -/
def rateLimiterWait (nextTick : Int) (cancelAt : Option Int) : WaitEvent × Int :=
  match cancelAt with
  | none => (.ticked, nextTick)
  | some t => if t ≤ nextTick then (.cancelled, t) else (.ticked, nextTick)

/-- The pacing step of `generateRequests`: `Wait` is invoked for a token
exactly when the engine holds a limiter (`if b.rateLimiter != nil`). -/
def generatorWaitsPerToken (limiter : Option RateLimiter) : Bool :=
  limiter.isSome

/-! ## Ramp-up controller (`pkg/benchmark/monitor.go`, `runRampUp`) -/

/-- `concurrencyStep` in `runRampUp`:
`(EndConcurrency - StartConcurrency) / Steps`, Go's truncating division. -/
def rampConcurrencyStep (cfg : RampUpConfig) : Int :=
  Int.tdiv (cfg.endConcurrency - cfg.startConcurrency) cfg.steps

/-- `stepDuration` in `runRampUp`: `Duration / Steps` (ticker period). -/
def rampStepDuration (cfg : RampUpConfig) : Int :=
  Int.tdiv cfg.duration cfg.steps

/-- Number of activated workers after `k` ticks of the ramp-up loop:
`StartConcurrency` at the start, then per tick
`newConcurrency := current + concurrencyStep`, capped at
`EndConcurrency`.  The loop body runs `Steps` times. -/
def rampActivated (cfg : RampUpConfig) : Nat → Int
  | 0 => cfg.startConcurrency
  | k + 1 =>
    let current := rampActivated cfg k
    let next := current + rampConcurrencyStep cfg
    if next > cfg.endConcurrency then cfg.endConcurrency else next

/-! ## Collector traces (for claims C1, C2, C9)

A run, from the collector's viewpoint, is a sequence of record calls and
snapshot calls; snapshot instants never decrease (wall clock). -/

/-- One collector-facing operation of a run. -/
inductive CollectorOp where
  | record (e : CollectorEvent)
  | snap (now : Nat)

/-- Run a sequence of operations from a collector state. -/
def runOps (c : Collector) : List CollectorOp → Collector
  | [] => c
  | .record e :: rest => runOps (applyEvent c e) rest
  | .snap now :: rest => runOps (collectorSnapshot c now).2 rest

/-- Snapshot instants in the trace are no earlier than `bound` and
nondecreasing. -/
def snapsAscending (bound : Nat) : List CollectorOp → Bool
  | [] => true
  | .record _ :: rest => snapsAscending bound rest
  | .snap now :: rest => bound ≤ now && snapsAscending now rest

/-- Every time point is at least one second after the previous one (and
the first at least one second after `t0`). -/
def gapOK (t0 : Nat) : List TimePoint → Bool
  | [] => true
  | p :: rest => t0 + 1000000000 ≤ p.timestamp && gapOK p.timestamp rest

/-- Timestamp of the last time point, or `t0` when there is none. -/
def lastPointTime (t0 : Nat) : List TimePoint → Nat
  | [] => t0
  | p :: rest => lastPointTime p.timestamp rest

/-! ## Specification-side interval RPS (for claim C2)

Written from the spec's words: "the RPS field is computed as (delta total
requests since previous point) / (elapsed seconds)". -/

/-- The RPS the spec mandates for a time-series point: the request count
delta since the previous point over the elapsed seconds. -/
def specIntervalRPS (previousTotal currentTotal : Int) (elapsedSec : ℚ) : ℚ :=
  ((currentTotal - previousTotal : Int) : ℚ) / elapsedSec

/-! ## Concrete fixtures used by the theorems -/

/-- A `ValidationConfig` with nothing configured. -/
def emptyValidationConfig : ValidationConfig :=
  { statusCodes := [], contentPatterns := [], responseTimeMax := 0
    headerValidation := []
    bodyValidation :=
      { minSize := 0, maxSize := 0, contains := [], notContains := [], jsonSchema := "" } }

/-- The validator built from the empty configuration. -/
def vEmpty : Validator := validatorNew (fun _ => none) emptyValidationConfig

/-- A successful 1 ms request transferring 100 bytes in, 50 out. -/
def okRequestEvent : CollectorEvent := .recRequest 1000000 100 50 true

/-- A run for claim C2: three requests, a snapshot at t = 2 s (first time
point, cumulative total 3), two more requests, a snapshot at t = 4 s
(second time point, cumulative total 5, delta 2). -/
def c2Trace : List CollectorOp :=
  [.record okRequestEvent, .record okRequestEvent, .record okRequestEvent,
   .snap 2000000000,
   .record okRequestEvent, .record okRequestEvent,
   .snap 4000000000]

/-- Ramp-up from 2 to 10 workers in 3 steps: 8 is not divisible by 3. -/
def c3Cfg : RampUpConfig :=
  { enabled := true, startConcurrency := 2, endConcurrency := 10
    duration := 30000000000, steps := 3 }

/-- A configuration that passes all four spec-listed checks but has the
distributed mode enabled, in master role, with no worker addresses. -/
def c7BadConfig : Config :=
  { target := { url := "http://example.com", method := "GET", headers := []
                body := "", timeout := 30000000000 }
    load := { concurrency := 10, duration := 5000000000, totalRequests := 0
              rateLimit := 0, loadPattern := "constant"
              rampUp := { enabled := false, startConcurrency := 0, endConcurrency := 0
                          duration := 0, steps := 0 }
              burstMode := { enabled := false, baseConcurrency := 0, burstConcurrency := 0
                             burstDuration := 0, burstInterval := 0 } }
    protocol := { http2Enabled := false, http3Enabled := false
                  keepAlive := true, idleTimeout := 90000000000 }
    validation := emptyValidationConfig
    distributed := { enabled := true, workerMode := false, masterAddress := ""
                     workerAddresses := [], syncInterval := 1000000000, grpcPort := 50051 } }

/-! ## Claim C1 -/

/-- Claim C1 (code bug): the claimed invariant `success + errors = total`
fails on the code.  A single request failing with a network error on a
fresh collector goes through `RecordError("network")` and then
`RecordRequest(..., false)`, each of which increments the global error
counter, so the very next snapshot reads `total = 1`, `success = 0`,
`errors = 2`, and `success + errors ≠ total`. -/
theorem c1_network_failure_double_counts_errors :
    (collectorSnapshot (executeRequest vEmpty (.networkFail 5000000) (newCollector 0))
        500000000).1.totalRequests = 1
    ∧ (collectorSnapshot (executeRequest vEmpty (.networkFail 5000000) (newCollector 0))
        500000000).1.successRequests = 0
    ∧ (collectorSnapshot (executeRequest vEmpty (.networkFail 5000000) (newCollector 0))
        500000000).1.totalErrors = 2
    ∧ ¬ ((collectorSnapshot (executeRequest vEmpty (.networkFail 5000000) (newCollector 0))
          500000000).1.successRequests
        + (collectorSnapshot (executeRequest vEmpty (.networkFail 5000000) (newCollector 0))
          500000000).1.totalErrors
      = (collectorSnapshot (executeRequest vEmpty (.networkFail 5000000) (newCollector 0))
          500000000).1.totalRequests) := by
  refine ⟨rfl, rfl, rfl, ?_⟩
  decide

/-! ## Claim C2 -/

/-- Claim C2 (code bug): the RPS of an appended time point is computed
from the cumulative total, not the interval delta.  In the `c2Trace` run
the second point's RPS is `5 / 2` (cumulative 5 requests over the 2 s
interval), while the spec-mandated interval RPS is `(5 - 3) / 2 = 1`;
`getLastTotalRequests` returning 0 unconditionally is the cause. -/
theorem c2_rps_computed_from_cumulative_total :
    ((runOps (newCollector 0) c2Trace).timeSeries.map TimePoint.rps) = [3 / 2, 5 / 2]
    ∧ specIntervalRPS 3 5 2 = 1
    ∧ (5 / 2 : ℚ) ≠ 1 := by
  refine ⟨?_, ?_, ?_⟩
  · norm_num [c2Trace, okRequestEvent, runOps, applyEvent, recordRequest,
      collectorSnapshot, takeSnapshot, recordTimePoint, getLastTotalRequests,
      newCollector, histMean]
  · norm_num [specIntervalRPS]
  · norm_num

/-! ## Claim C3 -/

/-- Claim C3 counterexample: ramping from 2 to 10 workers in 3 steps, the
code's per-step increment is `(10 - 2) / 3 = 2` (truncating division, no
remainder absorption), so after all 3 steps only 8 workers are activated,
not `end = 10` as the claim states. -/
theorem c3_final_count_falls_short_of_end :
    rampActivated c3Cfg 3 = 8 ∧ c3Cfg.steps = 3 ∧ c3Cfg.endConcurrency = 10
    ∧ rampActivated c3Cfg 3 ≠ c3Cfg.endConcurrency := by
  refine ⟨rfl, rfl, rfl, ?_⟩
  decide

/-- Claim C3 amended: under ramp-up with `0 ≤ start ≤ end` and `0 < S`
steps, the first `start` workers are active at the start; each tick adds
`(end - start) / S` workers (truncating division), capped at `end`;
activation is monotonically non-decreasing and never exceeds `end`; and
after all `S` steps the activated count is
`start + S * ((end - start) / S)` — which falls short of `end` whenever
`S` does not divide `end - start` (no remainder absorption). -/
theorem c3_ramp_up_activation (cfg : RampUpConfig)
    (_h1 : 0 ≤ cfg.startConcurrency)
    (h2 : cfg.startConcurrency ≤ cfg.endConcurrency)
    (h3 : 0 < cfg.steps) :
    rampActivated cfg 0 = cfg.startConcurrency
    ∧ (∀ k, rampActivated cfg k ≤ rampActivated cfg (k + 1))
    ∧ (∀ k, rampActivated cfg k ≤ cfg.endConcurrency)
    ∧ (∀ k : Nat, (k : Int) ≤ cfg.steps →
        rampActivated cfg k = cfg.startConcurrency + k * rampConcurrencyStep cfg)
    ∧ rampActivated cfg cfg.steps.toNat
        = cfg.startConcurrency + cfg.steps * rampConcurrencyStep cfg := by
  have hq : 0 ≤ rampConcurrencyStep cfg :=
    Int.tdiv_nonneg (by omega) (by omega)
  have hqe : rampConcurrencyStep cfg
      = (cfg.endConcurrency - cfg.startConcurrency) / cfg.steps :=
    Int.tdiv_eq_ediv (by omega) (by omega)
  have hbound : cfg.steps * rampConcurrencyStep cfg
      ≤ cfg.endConcurrency - cfg.startConcurrency := by
    rw [hqe, mul_comm]
    exact Int.ediv_mul_le _ (by omega)
  have hle : ∀ k, rampActivated cfg k ≤ cfg.endConcurrency := by
    intro k
    cases k with
    | zero => exact h2
    | succ n =>
      show (if rampActivated cfg n + rampConcurrencyStep cfg > cfg.endConcurrency
            then cfg.endConcurrency
            else rampActivated cfg n + rampConcurrencyStep cfg) ≤ cfg.endConcurrency
      split <;> omega
  have hclosed : ∀ k : Nat, (k : Int) ≤ cfg.steps →
      rampActivated cfg k = cfg.startConcurrency + k * rampConcurrencyStep cfg := by
    intro k
    induction k with
    | zero => intro _; simp [rampActivated]
    | succ n ih =>
      intro hk
      have hn : (n : Int) ≤ cfg.steps := by push_cast at hk ⊢; omega
      have hval := ih hn
      have hnext : cfg.startConcurrency + (n + 1 : Int) * rampConcurrencyStep cfg
          ≤ cfg.endConcurrency := by
        have : (n + 1 : Int) * rampConcurrencyStep cfg
            ≤ cfg.steps * rampConcurrencyStep cfg := by
          apply mul_le_mul_of_nonneg_right _ hq
          push_cast at hk ⊢; omega
        omega
      show (if rampActivated cfg n + rampConcurrencyStep cfg > cfg.endConcurrency
            then cfg.endConcurrency
            else rampActivated cfg n + rampConcurrencyStep cfg)
          = cfg.startConcurrency + ((n : Nat) + 1 : Int) * rampConcurrencyStep cfg
      rw [hval]
      have hnogt : ¬ (cfg.startConcurrency + (n : Int) * rampConcurrencyStep cfg
          + rampConcurrencyStep cfg > cfg.endConcurrency) := by
        push_cast at hnext ⊢
        nlinarith
      rw [if_neg hnogt]
      ring
  refine ⟨rfl, ?_, hle, hclosed, ?_⟩
  · intro k
    show rampActivated cfg k
        ≤ (if rampActivated cfg k + rampConcurrencyStep cfg > cfg.endConcurrency
           then cfg.endConcurrency
           else rampActivated cfg k + rampConcurrencyStep cfg)
    have := hle k
    split <;> omega
  · have := hclosed cfg.steps.toNat (by omega)
    rwa [Int.toNat_of_nonneg h3.le] at this

/-- Witness for `c3_ramp_up_activation` at the 2 → 10 in 3 steps
configuration: the hypotheses hold and the final count is
`2 + 3 * 2 = 8`. -/
theorem c3_ramp_up_activation_witness :
    (0 ≤ c3Cfg.startConcurrency ∧ c3Cfg.startConcurrency ≤ c3Cfg.endConcurrency
      ∧ 0 < c3Cfg.steps)
    ∧ (rampActivated c3Cfg 0 = c3Cfg.startConcurrency
       ∧ (∀ k, rampActivated c3Cfg k ≤ rampActivated c3Cfg (k + 1))
       ∧ (∀ k, rampActivated c3Cfg k ≤ c3Cfg.endConcurrency)
       ∧ (∀ k : Nat, (k : Int) ≤ c3Cfg.steps →
           rampActivated c3Cfg k = c3Cfg.startConcurrency + k * rampConcurrencyStep c3Cfg)
       ∧ rampActivated c3Cfg c3Cfg.steps.toNat
           = c3Cfg.startConcurrency + c3Cfg.steps * rampConcurrencyStep c3Cfg) :=
  ⟨⟨by decide, by decide, by decide⟩,
   c3_ramp_up_activation c3Cfg (by decide) (by decide) (by decide)⟩

/-! ## Claim C4 -/

/-- Claim C4 counterexample: on a body-read failure the executor records
the `body_read` error and a failed request and returns, never reaching
`RecordStatusCode` — contradicting the claim that the status code is
recorded on every body-read failure. -/
theorem c4_body_read_failure_records_no_status_code :
    executeRequestEvents vEmpty (.bodyReadFail 5000000)
      = [.recError "body_read", .recRequest 5000000 0 0 false]
    ∧ (executeRequestEvents vEmpty (.bodyReadFail 5000000)).any isRecStatusCode = false := by
  exact ⟨rfl, rfl⟩

/-- Claim C4 amended: `RecordStatusCode` is called for exactly the
requests whose exchange completed (headers received and body fully read)
— that is, on every success and on every validation failure — and not on
request-creation, network, or body-read failures. -/
theorem c4_status_code_recorded_iff_completed (v : Validator) (o : RequestOutcome) :
    (executeRequestEvents v o).any isRecStatusCode = o.isCompleted := by
  cases o with
  | createFail => rfl
  | networkFail lat => rfl
  | bodyReadFail lat => rfl
  | completed lat resp body contentLength =>
    by_cases h : (validate v resp body).isNone <;>
      simp [executeRequestEvents, RequestOutcome.isCompleted, isRecStatusCode, h]

/-! ## Claim C5 -/

theorem firstSome_eq_none_iff (l : List (Option String)) :
    firstSome l = none ↔ ∀ x ∈ l, x = none := by
  induction l with
  | nil => simp [firstSome]
  | cons x rest ih =>
    cases x with
    | none => simpa [firstSome] using ih
    | some k => simp [firstSome]

theorem firstSome_append_singleton (xs : List (Option String)) (y : Option String) :
    firstSome (xs ++ [y]) =
      (match firstSome xs with
       | some k => some k
       | none => y) := by
  induction xs with
  | nil => cases y <;> simp [firstSome]
  | cons x rest ih =>
    cases x with
    | none => simpa [firstSome] using ih
    | some k => simp [firstSome]

theorem headerMismatch_eq_none_iff (hs l : List (String × String)) :
    headerMismatch hs l = none ↔
      l.all (fun p => headerGet hs p.1 == p.2) = true := by
  induction l with
  | nil => simp [headerMismatch]
  | cons p rest ih =>
    obtain ⟨key, expected⟩ := p
    by_cases h : headerGet hs key ≠ expected <;>
      simp_all [headerMismatch]

theorem firstMissing_eq_none_iff (body : List Nat) (l : List (List Nat)) :
    firstMissing body l = none ↔ l.all (fun c => hasSub body c) = true := by
  induction l with
  | nil => simp [firstMissing]
  | cons c rest ih =>
    by_cases h : hasSub body c <;> simp_all [firstMissing]

theorem firstForbidden_eq_none_iff (body : List Nat) (l : List (List Nat)) :
    firstForbidden body l = none ↔ l.any (fun c => hasSub body c) = false := by
  induction l with
  | nil => simp [firstForbidden]
  | cons c rest ih =>
    by_cases h : hasSub body c <;> simp_all [firstForbidden]

theorem firstNonMatching_eq_none_iff (body : List Nat) (l : List Matcher) :
    firstNonMatching body l = none ↔ l.all (fun p => p body) = true := by
  induction l with
  | nil => simp [firstNonMatching]
  | cons p rest ih =>
    by_cases h : p body <;> simp_all [firstNonMatching]

theorem kindOf_validateBody (v : Validator) (body : List Nat) :
    kindOf (validateBody v body) =
      firstSome [specBodySizeCheck v body, specRequiredCheck v body,
                 specForbiddenCheck v body, specPatternsCheck v body] := by
  unfold validateBody specBodySizeCheck specRequiredCheck specForbiddenCheck
    specPatternsCheck
  by_cases hmin : v.config.bodyValidation.minSize > 0
      ∧ (body.length : Int) < v.config.bodyValidation.minSize
  · simp [hmin, kindOf, firstSome]
  · by_cases hmax : v.config.bodyValidation.maxSize > 0
        ∧ (body.length : Int) > v.config.bodyValidation.maxSize
    · simp [hmin, hmax, kindOf, firstSome]
    · have hsz : ¬ ((v.config.bodyValidation.minSize > 0
          ∧ (body.length : Int) < v.config.bodyValidation.minSize)
          ∨ (v.config.bodyValidation.maxSize > 0
          ∧ (body.length : Int) > v.config.bodyValidation.maxSize)) := by tauto
      rw [if_neg hmin, if_neg hmax, if_neg hsz]
      cases hm : firstMissing body v.config.bodyValidation.contains with
      | some c =>
        have hnall : ¬ (v.config.bodyValidation.contains.all
            (fun c => hasSub body c) = true) := by
          intro h
          rw [(firstMissing_eq_none_iff body v.config.bodyValidation.contains).mpr h]
            at hm
          exact Option.noConfusion hm
        rw [if_neg hnall]
        simp [kindOf, firstSome]
      | none =>
        have hall := (firstMissing_eq_none_iff body
          v.config.bodyValidation.contains).mp hm
        rw [if_pos hall]
        cases hf : firstForbidden body v.config.bodyValidation.notContains with
        | some c =>
          have hany : v.config.bodyValidation.notContains.any
              (fun c => hasSub body c) = true := by
            by_cases h : v.config.bodyValidation.notContains.any
                (fun c => hasSub body c) = true
            · exact h
            · rw [(firstForbidden_eq_none_iff body
                v.config.bodyValidation.notContains).mpr
                  (Bool.eq_false_iff.mpr (fun hh => h hh))] at hf
              exact Option.noConfusion hf
          rw [if_pos hany]
          simp [kindOf, firstSome]
        | none =>
          have hnone := (firstForbidden_eq_none_iff body
            v.config.bodyValidation.notContains).mp hf
          rw [if_neg (by simp [hnone])]
          cases hp : firstNonMatching body v.contentPatterns with
          | some p =>
            have hnall : ¬ (v.contentPatterns.all (fun p => p body) = true) := by
              intro h
              rw [(firstNonMatching_eq_none_iff body v.contentPatterns).mpr h] at hp
              exact Option.noConfusion hp
            rw [if_neg hnall]
            simp [kindOf, firstSome]
          | none =>
            have hmatch := (firstNonMatching_eq_none_iff body v.contentPatterns).mp hp
            rw [if_pos hmatch]
            simp [kindOf, firstSome]

theorem kindOf_validateStatusCode (compile : String → Option Matcher)
    (cfg : ValidationConfig) (resp : HTTPResponse) :
    kindOf (validateStatusCode (validatorNew compile cfg) resp.statusCode) =
      specStatusCheck (validatorNew compile cfg) resp := by
  unfold validateStatusCode specStatusCheck validatorNew
  cases h : cfg.statusCodes with
  | nil => simp [kindOf]
  | cons a l =>
    by_cases h2 : (a :: l).contains resp.statusCode <;> simp_all [kindOf]

theorem kindOf_validateHeaders (v : Validator) (resp : HTTPResponse) :
    kindOf (validateHeaders v resp.header) = specHeadersCheck v resp := by
  unfold validateHeaders specHeadersCheck
  cases hm : headerMismatch resp.header v.config.headerValidation with
  | some p =>
    have hnall : ¬ (v.config.headerValidation.all
        (fun p => headerGet resp.header p.1 == p.2) = true) := by
      intro h
      rw [(headerMismatch_eq_none_iff resp.header v.config.headerValidation).mpr h]
        at hm
      exact Option.noConfusion hm
    rw [if_neg hnall]
    simp [kindOf]
  | none =>
    rw [if_pos ((headerMismatch_eq_none_iff resp.header
      v.config.headerValidation).mp hm)]
    simp [kindOf]

theorem kindOf_validate (compile : String → Option Matcher) (cfg : ValidationConfig)
    (resp : HTTPResponse) (body : List Nat) :
    kindOf (validate (validatorNew compile cfg) resp body) =
      firstSome (specChecks (validatorNew compile cfg) resp body) := by
  have hst := kindOf_validateStatusCode compile cfg resp
  have hhd := kindOf_validateHeaders (validatorNew compile cfg) resp
  have hbd := kindOf_validateBody (validatorNew compile cfg) body
  unfold validate specChecks
  cases hs : validateStatusCode (validatorNew compile cfg) resp.statusCode with
  | some e =>
    rw [hs] at hst
    simp only [kindOf] at hst
    rw [← hst]
    simp [firstSome, kindOf]
  | none =>
    rw [hs] at hst
    simp only [kindOf] at hst
    rw [← hst]
    cases hh : validateHeaders (validatorNew compile cfg) resp.header with
    | some e =>
      rw [hh] at hhd
      simp only [kindOf] at hhd
      rw [← hhd]
      simp [firstSome, kindOf]
    | none =>
      rw [hh] at hhd
      simp only [kindOf] at hhd
      rw [← hhd]
      simpa [firstSome] using hbd

/-- Claim C5: for a validator built by `New`, `Validate` and
`ValidateWithLatency` evaluate the spec's checks in the fixed order —
status membership, header equalities, body-size bounds, required
substrings, forbidden substrings, regex patterns, and (latency-aware
variant only) the latency threshold — the first failing check
short-circuits with a `ValidationError` carrying that check's kind, and
a response passing all configured checks yields no error. -/
theorem c5_validator_fixed_check_order (compile : String → Option Matcher)
    (cfg : ValidationConfig) (resp : HTTPResponse) (body : List Nat) (latency : Int) :
    kindOf (validate (validatorNew compile cfg) resp body)
        = firstSome (specChecks (validatorNew compile cfg) resp body)
    ∧ kindOf (validateWithLatency (validatorNew compile cfg) resp body latency)
        = firstSome (specChecksWithLatency (validatorNew compile cfg) resp body latency)
    ∧ (validateWithLatency (validatorNew compile cfg) resp body latency = none ↔
        ∀ check ∈ specChecksWithLatency (validatorNew compile cfg) resp body latency,
          check = none) := by
  have h1 := kindOf_validate compile cfg resp body
  have h2 : kindOf (validateWithLatency (validatorNew compile cfg) resp body latency)
      = firstSome (specChecksWithLatency (validatorNew compile cfg) resp body latency) := by
    unfold validateWithLatency specChecksWithLatency
    rw [firstSome_append_singleton]
    cases hv : validate (validatorNew compile cfg) resp body with
    | some e =>
      rw [hv] at h1
      simp [kindOf] at h1
      simp [kindOf, ← h1]
    | none =>
      rw [hv] at h1
      simp [kindOf] at h1
      rw [← h1]
      unfold specLatencyCheck
      by_cases hl : (validatorNew compile cfg).config.responseTimeMax > 0
          ∧ latency > (validatorNew compile cfg).config.responseTimeMax <;>
        simp [hl, kindOf]
  refine ⟨h1, h2, ?_⟩
  constructor
  · intro hv
    rw [hv] at h2
    simp [kindOf] at h2
    exact (firstSome_eq_none_iff _).mp h2.symm
  · intro hall
    have := (firstSome_eq_none_iff _).mpr hall
    rw [this] at h2
    cases hv : validateWithLatency (validatorNew compile cfg) resp body latency with
    | none => rfl
    | some e => rw [hv] at h2; simp [kindOf] at h2

/-! ## Claim C8 -/

/-- A validation configuration with the patterns that fail to compile
removed — "as if that pattern had never been configured". -/
def restrictedConfig (compile : String → Option Matcher) (cfg : ValidationConfig) :
    ValidationConfig :=
  { cfg with
    contentPatterns := cfg.contentPatterns.filter (fun p => (compile p).isSome) }

theorem filterMap_filter_isSome {α β : Type} (f : α → Option β) (l : List α) :
    (l.filter (fun a => (f a).isSome)).filterMap f = l.filterMap f := by
  induction l with
  | nil => rfl
  | cons a rest ih =>
    cases h : f a with
    | some b => simp [List.filter, List.filterMap, h, ih]
    | none => simp [List.filter, List.filterMap, h, ih]

theorem validate_congr (v w : Validator)
    (h1 : v.config.headerValidation = w.config.headerValidation)
    (h2 : v.config.bodyValidation = w.config.bodyValidation)
    (h3 : v.statusCodeMap = w.statusCodeMap)
    (h4 : v.contentPatterns = w.contentPatterns) :
    ∀ resp body, validate v resp body = validate w resp body := by
  intro resp body
  unfold validate validateStatusCode validateHeaders validateBody
  rw [h1, h2, h3, h4]

/-- Claim C8: each configured regex pattern is compiled exactly once at
construction — the validator holds exactly the compiled results of the
pattern list, and `Validate` never invokes the compiler again — and a
pattern that fails to compile is discarded silently: validation behaves
exactly as if the configuration had never listed it. -/
theorem c8_failed_patterns_silently_discarded (compile : String → Option Matcher)
    (cfg : ValidationConfig) (resp : HTTPResponse) (body : List Nat) (latency : Int) :
    (validatorNew compile cfg).contentPatterns = cfg.contentPatterns.filterMap compile
    ∧ validate (validatorNew compile cfg) resp body
        = validate (validatorNew compile (restrictedConfig compile cfg)) resp body
    ∧ validateWithLatency (validatorNew compile cfg) resp body latency
        = validateWithLatency (validatorNew compile (restrictedConfig compile cfg))
            resp body latency := by
  have hpat : (validatorNew compile cfg).contentPatterns
      = (validatorNew compile (restrictedConfig compile cfg)).contentPatterns := by
    simp [validatorNew, restrictedConfig, filterMap_filter_isSome]
  have hval := validate_congr (validatorNew compile cfg)
    (validatorNew compile (restrictedConfig compile cfg))
    rfl rfl rfl hpat resp body
  refine ⟨rfl, hval, ?_⟩
  unfold validateWithLatency
  rw [hval]
  simp only [validatorNew, restrictedConfig]

/-! ## Claim C10 -/

/-- Claim C10: a validator built from a configuration with no status
codes, no header equalities, zero body-size bounds, no required or
forbidden substrings and no content patterns accepts every response and
body, and the executor then counts every request that completes its body
read as a success: its collector calls are exactly
`RecordRequest(..., success = true)` followed by `RecordStatusCode`. -/
theorem c10_empty_validation_accepts_everything (compile : String → Option Matcher)
    (cfg : ValidationConfig) (resp : HTTPResponse) (body : List Nat)
    (latency : Nat) (contentLength : Int)
    (h1 : cfg.statusCodes = [])
    (h2 : cfg.headerValidation = [])
    (h3 : cfg.bodyValidation.minSize = 0)
    (h4 : cfg.bodyValidation.maxSize = 0)
    (h5 : cfg.bodyValidation.contains = [])
    (h6 : cfg.bodyValidation.notContains = [])
    (h7 : cfg.contentPatterns = []) :
    validate (validatorNew compile cfg) resp body = none
    ∧ executeRequestEvents (validatorNew compile cfg)
        (.completed latency resp body contentLength)
      = [.recRequest latency (body.length : Int) contentLength true,
         .recStatusCode resp.statusCode] := by
  have hv : validate (validatorNew compile cfg) resp body = none := by
    unfold validate validateStatusCode validateHeaders validateBody validatorNew
    simp [h1, h2, h3, h4, h5, h6, h7, headerMismatch, firstMissing, firstForbidden,
      firstNonMatching]
  refine ⟨hv, ?_⟩
  unfold executeRequestEvents
  simp [hv]

/-- Witness for `c10_empty_validation_accepts_everything` at the empty
configuration, a 200 response with a two-byte body. -/
theorem c10_empty_validation_accepts_everything_witness :
    (emptyValidationConfig.statusCodes = []
      ∧ emptyValidationConfig.headerValidation = []
      ∧ emptyValidationConfig.bodyValidation.minSize = 0
      ∧ emptyValidationConfig.bodyValidation.maxSize = 0
      ∧ emptyValidationConfig.bodyValidation.contains = []
      ∧ emptyValidationConfig.bodyValidation.notContains = []
      ∧ emptyValidationConfig.contentPatterns = [])
    ∧ (validate (validatorNew (fun _ => none) emptyValidationConfig)
        { statusCode := 200, header := [] } [7, 7] = none
       ∧ executeRequestEvents (validatorNew (fun _ => none) emptyValidationConfig)
          (.completed 5000000 { statusCode := 200, header := [] } [7, 7] 0)
        = [.recRequest 5000000 (([7, 7] : List Nat).length : Int) 0 true,
           .recStatusCode (200 : Int)]) :=
  ⟨⟨rfl, rfl, rfl, rfl, rfl, rfl, rfl⟩,
   c10_empty_validation_accepts_everything (fun _ => none) emptyValidationConfig
     { statusCode := 200, header := [] } [7, 7] 5000000 0
     rfl rfl rfl rfl rfl rfl rfl⟩

/-! ## Claim C7 -/

/-- Claim C7 counterexample: `c7BadConfig` violates none of the four
spec-listed conditions (non-empty URL, positive concurrency, a positive
duration, HTTP/2 and HTTP/3 not both enabled), yet `Config.Validate`
rejects it, because the code additionally requires a distributed-mode
master to list at least one worker address. -/
theorem c7_distributed_config_rejected :
    configValidate c7BadConfig = some .distributedNoWorkers
    ∧ c7BadConfig.target.url ≠ ""
    ∧ ¬ c7BadConfig.load.concurrency ≤ 0
    ∧ ¬ (c7BadConfig.load.duration ≤ 0 ∧ c7BadConfig.load.totalRequests ≤ 0)
    ∧ ¬ (c7BadConfig.protocol.http2Enabled ∧ c7BadConfig.protocol.http3Enabled) := by
  refine ⟨rfl, ?_, ?_, ?_, ?_⟩ <;> decide

/-- Claim C7 amended: `Config.Validate` returns no error exactly when
none of FIVE conditions holds: empty URL; concurrency ≤ 0; neither a
positive duration nor a positive total-request count; HTTP/2 and HTTP/3
both enabled; distributed mode enabled in master role with no worker
addresses. -/
theorem c7_validate_characterization (c : Config) :
    configValidate c = none ↔
      ¬ (c.target.url = ""
         ∨ c.load.concurrency ≤ 0
         ∨ (c.load.duration ≤ 0 ∧ c.load.totalRequests ≤ 0)
         ∨ (c.protocol.http2Enabled ∧ c.protocol.http3Enabled)
         ∨ (c.distributed.enabled ∧ ¬ c.distributed.workerMode
            ∧ c.distributed.workerAddresses.length = 0)) := by
  unfold configValidate
  split_ifs with h1 h2 h3 h4 h5 <;> simp_all

/-! ## Claim C6 -/

/-- Claim C6: the engine builds a rate limiter exactly when the
configured rate is positive.  With `rps > 0` the limiter's ticker is
strictly periodic with period `1 s / rps` at nanosecond resolution
(`rps * interval ≤ 10⁹ < rps * (interval + 1)`), consecutive ticks are
exactly `interval` apart, and `Wait` returns at the next tick or at the
context's cancellation, whichever comes first.  With `rps = 0` no
limiter exists and the request generator applies no pacing. -/
theorem c6_rate_limiter_pacing (load : LoadConfig) :
    (benchmarkRateLimiter load).isSome = decide (load.rateLimit > 0)
    ∧ (load.rateLimit > 0 →
        benchmarkRateLimiter load = some (newRateLimiter load.rateLimit)
        ∧ (newRateLimiter load.rateLimit).interval = 1000000000 / load.rateLimit
        ∧ load.rateLimit * (newRateLimiter load.rateLimit).interval ≤ 1000000000
        ∧ 1000000000 < load.rateLimit * ((newRateLimiter load.rateLimit).interval + 1))
    ∧ (∀ r : RateLimiter, ∀ k : Nat, tickerTick r (k + 1) - tickerTick r k = r.interval)
    ∧ (∀ nextTick : Int, rateLimiterWait nextTick none = (.ticked, nextTick))
    ∧ (∀ nextTick cancelAt : Int, cancelAt ≤ nextTick →
        rateLimiterWait nextTick (some cancelAt) = (.cancelled, cancelAt))
    ∧ (∀ nextTick cancelAt : Int, nextTick < cancelAt →
        rateLimiterWait nextTick (some cancelAt) = (.ticked, nextTick))
    ∧ (load.rateLimit = 0 →
        benchmarkRateLimiter load = none
        ∧ generatorWaitsPerToken (benchmarkRateLimiter load) = false) := by
  refine ⟨?_, ?_, ?_, ?_, ?_, ?_, ?_⟩
  · unfold benchmarkRateLimiter
    by_cases h : load.rateLimit > 0 <;> simp [h]
  · intro h
    have hdiv : Int.tdiv 1000000000 load.rateLimit = 1000000000 / load.rateLimit :=
      Int.tdiv_eq_ediv (by norm_num) h.le
    refine ⟨by simp [benchmarkRateLimiter, h], by simp [newRateLimiter, hdiv], ?_, ?_⟩
    · show load.rateLimit * Int.tdiv 1000000000 load.rateLimit ≤ 1000000000
      rw [hdiv, mul_comm]
      exact Int.ediv_mul_le _ (by omega)
    · show (1000000000 : Int) < load.rateLimit * (Int.tdiv 1000000000 load.rateLimit + 1)
      rw [hdiv, mul_comm]
      exact Int.lt_ediv_add_one_mul_self _ h
  · intro r k
    unfold tickerTick
    push_cast
    ring
  · intro nextTick
    rfl
  · intro nextTick cancelAt h
    simp [rateLimiterWait, h]
  · intro nextTick cancelAt h
    simp [rateLimiterWait, not_le.mpr h]
  · intro h
    constructor
    · simp [benchmarkRateLimiter, h]
    · simp [generatorWaitsPerToken, benchmarkRateLimiter, h]

/-- A load section with a 100 req/s limit. -/
def c6LoadLimited : LoadConfig :=
  { concurrency := 10, duration := 5000000000, totalRequests := 0
    rateLimit := 100, loadPattern := "constant"
    rampUp := { enabled := false, startConcurrency := 0, endConcurrency := 0
                duration := 0, steps := 0 }
    burstMode := { enabled := false, baseConcurrency := 0, burstConcurrency := 0
                   burstDuration := 0, burstInterval := 0 } }

/-- The same load section with no rate limit configured. -/
def c6LoadUnlimited : LoadConfig :=
  { c6LoadLimited with rateLimit := 0 }

/-- Witness for `c6_rate_limiter_pacing` at a 100 req/s load (the
positive branch fires: the interval is 10 ms) and at an unlimited load
(the zero branch fires: no limiter, no pacing). -/
theorem c6_rate_limiter_pacing_witness :
    ((benchmarkRateLimiter c6LoadLimited).isSome = decide (c6LoadLimited.rateLimit > 0)
     ∧ (c6LoadLimited.rateLimit > 0 →
         benchmarkRateLimiter c6LoadLimited = some (newRateLimiter c6LoadLimited.rateLimit)
         ∧ (newRateLimiter c6LoadLimited.rateLimit).interval
             = 1000000000 / c6LoadLimited.rateLimit
         ∧ c6LoadLimited.rateLimit * (newRateLimiter c6LoadLimited.rateLimit).interval
             ≤ 1000000000
         ∧ 1000000000
             < c6LoadLimited.rateLimit
               * ((newRateLimiter c6LoadLimited.rateLimit).interval + 1))
     ∧ (∀ r : RateLimiter, ∀ k : Nat,
         tickerTick r (k + 1) - tickerTick r k = r.interval)
     ∧ (∀ nextTick : Int, rateLimiterWait nextTick none = (.ticked, nextTick))
     ∧ (∀ nextTick cancelAt : Int, cancelAt ≤ nextTick →
         rateLimiterWait nextTick (some cancelAt) = (.cancelled, cancelAt))
     ∧ (∀ nextTick cancelAt : Int, nextTick < cancelAt →
         rateLimiterWait nextTick (some cancelAt) = (.ticked, nextTick))
     ∧ (c6LoadLimited.rateLimit = 0 →
         benchmarkRateLimiter c6LoadLimited = none
         ∧ generatorWaitsPerToken (benchmarkRateLimiter c6LoadLimited) = false))
    ∧ (benchmarkRateLimiter c6LoadUnlimited = none
       ∧ generatorWaitsPerToken (benchmarkRateLimiter c6LoadUnlimited) = false) :=
  ⟨c6_rate_limiter_pacing c6LoadLimited,
   (c6_rate_limiter_pacing c6LoadUnlimited).2.2.2.2.2.2 (by decide)⟩

/-! ## Claim C9 -/

theorem lastPointTime_append (t0 : Nat) (ps : List TimePoint) (p : TimePoint) :
    lastPointTime t0 (ps ++ [p]) = p.timestamp := by
  induction ps generalizing t0 with
  | nil => rfl
  | cons q rest ih => simpa [lastPointTime] using ih q.timestamp

theorem gapOK_append (t0 : Nat) (ps : List TimePoint) (p : TimePoint)
    (h : gapOK t0 ps = true)
    (hp : lastPointTime t0 ps + 1000000000 ≤ p.timestamp) :
    gapOK t0 (ps ++ [p]) = true := by
  induction ps generalizing t0 with
  | nil => simpa [gapOK, lastPointTime] using hp
  | cons q rest ih =>
    simp only [gapOK, List.cons_append, Bool.and_eq_true] at h ⊢
    exact ⟨h.1, ih q.timestamp h.2 (by simpa [lastPointTime] using hp)⟩

theorem snapsAscending_mono (b b' : Nat) (ops : List CollectorOp) (hb : b ≤ b')
    (h : snapsAscending b' ops = true) : snapsAscending b ops = true := by
  induction ops with
  | nil => rfl
  | cons op rest ih =>
    cases op with
    | record e =>
      simp only [snapsAscending] at h ⊢
      exact ih h
    | snap now =>
      simp only [snapsAscending, Bool.and_eq_true, decide_eq_true_eq] at h ⊢
      exact ⟨le_trans hb h.1, h.2⟩

theorem recordTimePoint_append (c : Collector) (s : Snapshot) (now : Nat)
    (h : ¬ now - c.lastSnapshot < 1000000000) :
    ∃ p : TimePoint, p.timestamp = now
      ∧ (recordTimePoint c s now).timeSeries = c.timeSeries ++ [p]
      ∧ (recordTimePoint c s now).lastSnapshot = now := by
  unfold recordTimePoint
  rw [if_neg h]
  exact ⟨_, rfl, rfl, rfl⟩

theorem applyEvent_timeSeries (c : Collector) (e : CollectorEvent) :
    (applyEvent c e).timeSeries = c.timeSeries
    ∧ (applyEvent c e).lastSnapshot = c.lastSnapshot := by
  cases e <;> exact ⟨rfl, rfl⟩

theorem runOps_invariant (t0 : Nat) (ops : List CollectorOp) (c : Collector)
    (hI : gapOK t0 c.timeSeries = true)
    (hL : c.lastSnapshot = lastPointTime t0 c.timeSeries)
    (hAsc : snapsAscending c.lastSnapshot ops = true) :
    gapOK t0 (runOps c ops).timeSeries = true
    ∧ (runOps c ops).lastSnapshot = lastPointTime t0 (runOps c ops).timeSeries := by
  induction ops generalizing c with
  | nil => exact ⟨hI, hL⟩
  | cons op rest ih =>
    cases op with
    | record e =>
      have he := applyEvent_timeSeries c e
      exact ih (applyEvent c e) (he.1 ▸ hI) (he.1 ▸ he.2 ▸ hL)
        (he.2 ▸ (by simpa [snapsAscending] using hAsc))
    | snap now =>
      simp only [snapsAscending, Bool.and_eq_true, decide_eq_true_eq] at hAsc
      obtain ⟨hnow, hrest⟩ := hAsc
      have hred : runOps c (CollectorOp.snap now :: rest)
          = runOps (collectorSnapshot c now).2 rest := rfl
      rw [hred]
      by_cases hlt : now - c.lastSnapshot < 1000000000
      · have hsame : (collectorSnapshot c now).2 = c := by
          simp [collectorSnapshot, recordTimePoint, hlt]
        rw [hsame]
        exact ih c hI hL (snapsAscending_mono c.lastSnapshot now rest hnow hrest)
      · obtain ⟨p, hpts, hts, hls⟩ :=
          recordTimePoint_append c (takeSnapshot c now) now hlt
        have hgap : lastPointTime t0 c.timeSeries + 1000000000 ≤ now := by
          rw [← hL]; omega
        have hsnap2 : (collectorSnapshot c now).2
            = recordTimePoint c (takeSnapshot c now) now := rfl
        rw [hsnap2]
        apply ih
        · rw [hts]
          exact gapOK_append t0 c.timeSeries p hI (hpts ▸ hgap)
        · rw [hls, hts, lastPointTime_append]
          exact hpts.symm
        · rw [hls]
          exact hrest

/-- Claim C9: starting from a fresh collector, along any run whose
snapshot instants are nondecreasing, (a) any two consecutive time-series
points are at least one second apart (and the first is at least one
second after collector creation), (b) the collector's `lastSnapshot`
field is the timestamp of the last appended point (or the creation
instant when there is none), and (c) a `Snapshot` taken less than one
second after that instant leaves the time series unchanged. -/
theorem c9_time_series_one_second_spacing (t0 : Nat) (ops : List CollectorOp)
    (hAsc : snapsAscending t0 ops = true) :
    gapOK t0 (runOps (newCollector t0) ops).timeSeries = true
    ∧ (runOps (newCollector t0) ops).lastSnapshot
        = lastPointTime t0 (runOps (newCollector t0) ops).timeSeries
    ∧ ∀ now : Nat, now - (runOps (newCollector t0) ops).lastSnapshot < 1000000000 →
        (collectorSnapshot (runOps (newCollector t0) ops) now).2.timeSeries
          = (runOps (newCollector t0) ops).timeSeries := by
  have h := runOps_invariant t0 ops (newCollector t0) rfl rfl hAsc
  refine ⟨h.1, h.2, ?_⟩
  intro now hlt
  simp [collectorSnapshot, recordTimePoint, hlt]

/-- A run for claim C9: snapshots at 0.5 s (skipped), 1.5 s (first
point), 1.7 s (skipped: 0.2 s after the last point), and 2.7 s (second
point, exactly 1.2 s later), with requests interleaved. -/
def c9Trace : List CollectorOp :=
  [.snap 500000000, .record okRequestEvent, .snap 1500000000,
   .record okRequestEvent, .snap 1700000000, .snap 2700000000]

/-- Witness for `c9_time_series_one_second_spacing` on the concrete run
`c9Trace` from a collector created at instant 0. -/
theorem c9_time_series_one_second_spacing_witness :
    snapsAscending 0 c9Trace = true
    ∧ (gapOK 0 (runOps (newCollector 0) c9Trace).timeSeries = true
       ∧ (runOps (newCollector 0) c9Trace).lastSnapshot
           = lastPointTime 0 (runOps (newCollector 0) c9Trace).timeSeries
       ∧ ∀ now : Nat, now - (runOps (newCollector 0) c9Trace).lastSnapshot < 1000000000 →
           (collectorSnapshot (runOps (newCollector 0) c9Trace) now).2.timeSeries
             = (runOps (newCollector 0) c9Trace).timeSeries) :=
  ⟨by decide, c9_time_series_one_second_spacing 0 c9Trace (by decide)⟩

end HttpBench
